import Mathlib

/-!
Verification development for the YandexID OAuth client library.

The shallow embedding below translates the OAuth-relevant fragment of the
library into Lean:

* `src/yandexid/validators.py` — `DeviceID.validate`, `DeviceName.validate`,
  `OptionalScope.validate`;
* `src/yandexid/errors/yandexoauth.py` — the exception taxonomy, modelled as
  the inductive type `OAuthExc`;
* `src/yandexid/schemas/yandexoauth.py` — the `Token` pydantic model;
* `src/yandexid/yandexoauth/async_yandexoauth.py` — `get_authorization_url`,
  `get_token_from_code`, `get_token_from_refresh_token`, `revoke_token`;
* `src/yandexid/yandexid/yandexid.py` and `async_yandexid.py` —
  `get_user_info` (both wrappers build exactly the same query dictionary,
  so one Lean function models both).

Python exceptions are modelled with `Except OAuthExc`; the `warnings.warn`
side channel is modelled by returning a list of warning message strings;
HTTP query/form dictionaries are modelled as insertion-ordered association
lists (`List (String × String)`), which is faithful because the Python code
never overwrites a key.  The injected HTTP transport is a function from the
request form body to a response, so that theorems can quantify over the
collaborator.  Percent-encoding of the final URL string, HTTP headers
(Basic auth, User-Agent) and logging are outside the modelled fragment:
no claim mentions them.  Character classes (`str.isalnum`, `str.strip`)
are modelled on the ASCII range.
-/

/-- Python `str.isalnum`: true iff the string is non-empty and every
character is alphanumeric (modelled on the ASCII range). -/
def pyIsAlnum (s : String) : Bool :=
  !s.data.isEmpty && s.data.all Char.isAlphanum

/-- Python `str.strip`: remove leading and trailing whitespace. -/
def pyStrip (s : String) : String :=
  String.mk (((s.data.dropWhile Char.isWhitespace).reverse.dropWhile
    Char.isWhitespace).reverse)

/-- Python `s.split(',')`: split on every comma, keeping empty pieces.
`splitOnCommaAux` is structural recursion over the character list. -/
def splitOnCommaAux : List Char → List Char → List String
  | [], acc => [String.mk acc.reverse]
  | c :: rest, acc =>
    if c = ',' then String.mk acc.reverse :: splitOnCommaAux rest []
    else splitOnCommaAux rest (c :: acc)

/-- Python `s.split(',')` on a string. -/
def splitOnComma (s : String) : List String :=
  splitOnCommaAux s.data []

/-- `listStartsWith needle hay`: `needle` is a prefix of `hay`. -/
def listStartsWith : List Char → List Char → Bool
  | [], _ => true
  | _ :: _, [] => false
  | a :: as, b :: bs => a = b && listStartsWith as bs

/-- `strContainsAux needle hay`: `needle` occurs contiguously in `hay`. -/
def strContainsAux (needle : List Char) : List Char → Bool
  | [] => needle.isEmpty
  | c :: rest => listStartsWith needle (c :: rest) || strContainsAux needle rest

/-- Python `needle in hay` for strings: substring containment. -/
def strContains (hay needle : String) : Bool :=
  strContainsAux needle.data hay.data

/-- Python truthiness of a `str | None` argument: `None` and the empty
string are falsy. -/
def truthy : Option String → Bool
  | none => false
  | some s => !s.data.isEmpty

/-- The exception taxonomy of `errors/yandexoauth.py`, plus the two
non-taxonomy failure modes that the Python runtime can raise inside the
modelled fragment: `keyError` for a missing dictionary key and
`tokenValidationError` for a pydantic `Token(**response)` failure.
`transportError` stands for an httpx transport-level failure
(`raise_for_status` or a network error). -/
inductive OAuthExc where
  | authorizationPending (desc : String)
  | badVerificationCode (desc : String)
  | invalidClient (desc : String)
  | invalidGrant (desc : String)
  | invalidRequest (desc : String)
  | invalidScope (desc : String)
  | unauthorizedClient (desc : String)
  | unsupportedGrantType (desc : String)
  | yandexOAuthError (desc : String)
  | invalidDeviceID (desc : String)
  | invalidDeviceName (desc : String)
  | keyError (key : String)
  | tokenValidationError
  | transportError (status : Nat)
deriving DecidableEq, Repr

/-- `DeviceID.validate` from `validators.py`. -/
def DeviceID.validate (device_id : String) : Except OAuthExc Bool :=
  if device_id.length < 6 then
    .error (.invalidDeviceID "Device ID is too short")
  else if 50 < device_id.length then
    .error (.invalidDeviceID "Device ID is too long")
  else if !pyIsAlnum device_id then
    .error (.invalidDeviceID "Device ID must contain only alphanumeric characters")
  else .ok true

/-- `DeviceName.validate` from `validators.py`. -/
def DeviceName.validate (device_name : String) : Except OAuthExc Bool :=
  if 100 < device_name.length then
    .error (.invalidDeviceName "Device name is too long")
  else .ok true

/-- The `ignored_scope` list built by `OptionalScope.validate`: the raw
comma-separated items whose UNTRIMMED text is not a substring of `scope`,
each appended in trimmed form. -/
def OptionalScope.ignoredScope (scope optional_scope : String) : List String :=
  ((splitOnComma optional_scope).filter
    (fun item => !strContains scope item)).map pyStrip

/-- `OptionalScope.validate` from `validators.py`, returning its emitted
warning messages (at most one). -/
def OptionalScope.validate (scope optional_scope : String) : List String :=
  let ignored := OptionalScope.ignoredScope scope optional_scope
  if ignored.isEmpty then []
  else ["Optional scopes " ++ String.intercalate ", " ignored ++ " is not in scope."]

/-- The JSON body returned by the token / revoke endpoints, restricted to
the keys the client reads.  `none` models an absent key; `some` models a
present string- (or integer-) valued key. -/
structure OAuthResponse where
  error : Option String := none
  error_description : Option String := none
  access_token : Option String := none
  token_type : Option String := none
  expires_in : Option Int := none
  refresh_token : Option String := none
  scope : Option String := none
deriving DecidableEq, Repr

/-- The `Token` pydantic model of `schemas/yandexoauth.py`:
`access_token`, `token_type`, `expires_in` and `refresh_token` are
required, `scope` defaults to `None`. -/
structure Token where
  access_token : String
  token_type : String
  expires_in : Int
  refresh_token : String
  scope : Option String := none
deriving DecidableEq, Repr

/-- `Token(**response)`: pydantic construction of a `Token` from the
response dictionary.  Fails (pydantic `ValidationError`) when a required
field is absent. -/
def Token.ofResponse (r : OAuthResponse) : Except OAuthExc Token :=
  match r.access_token, r.token_type, r.expires_in, r.refresh_token with
  | some a, some t, some e, some rt =>
    .ok { access_token := a, token_type := t, expires_in := e,
          refresh_token := rt, scope := r.scope }
  | _, _, _, _ => .error .tokenValidationError

/-- `response['error_description']`: a `KeyError` when the key is absent. -/
def errorDescription (r : OAuthResponse) : Except OAuthExc String :=
  match r.error_description with
  | some d => .ok d
  | none => .error (.keyError "error_description")

/-- The `match response['error']` dispatch of `get_token_from_code`. -/
def exchangeError (code desc : String) : OAuthExc :=
  if code = "authorization_pending" then .authorizationPending desc
  else if code = "bad_verification_code" then .badVerificationCode desc
  else if code = "invalid_client" then .invalidClient desc
  else if code = "invalid_grant" then .invalidGrant desc
  else if code = "invalid_request" then .invalidRequest desc
  else if code = "invalid_scope" then .invalidScope desc
  else if code = "unauthorized_client" then .unauthorizedClient desc
  else if code = "unsupported_grant_type" then .unsupportedGrantType desc
  else .yandexOAuthError desc

/-- The `match response['error']` dispatch of `get_token_from_refresh_token`. -/
def refreshError (code desc : String) : OAuthExc :=
  if code = "invalid_client" then .invalidClient desc
  else if code = "invalid_grant" then .invalidGrant desc
  else if code = "invalid_request" then .invalidRequest desc
  else if code = "unauthorized_client" then .unauthorizedClient desc
  else if code = "unsupported_grant_type" then .unsupportedGrantType desc
  else .yandexOAuthError desc

/-- The `match response['error']` dispatch of `revoke_token`. -/
def revokeError (code desc : String) : OAuthExc :=
  if code = "invalid_client" then .invalidClient desc
  else if code = "invalid_request" then .invalidRequest desc
  else if code = "unauthorized_client" then .unauthorizedClient desc
  else .yandexOAuthError desc

/-- Response handling of `get_token_from_code` after `_make_request`
returns: `if 'error' in response: match ... ; return Token(**response)`. -/
def handleExchangeResponse (r : OAuthResponse) : Except OAuthExc Token :=
  match r.error with
  | some code =>
    match errorDescription r with
    | .ok desc => .error (exchangeError code desc)
    | .error e => .error e
  | none => Token.ofResponse r

/-- Response handling of `get_token_from_refresh_token`. -/
def handleRefreshResponse (r : OAuthResponse) : Except OAuthExc Token :=
  match r.error with
  | some code =>
    match errorDescription r with
    | .ok desc => .error (refreshError code desc)
    | .error e => .error e
  | none => Token.ofResponse r

/-- Response handling of `revoke_token`: `return True` when no error. -/
def handleRevokeResponse (r : OAuthResponse) : Except OAuthExc Bool :=
  match r.error with
  | some code =>
    match errorDescription r with
    | .ok desc => .error (revokeError code desc)
    | .error e => .error e
  | none => .ok true

/-- Warning emitted when `device_id` is given without `device_name`. -/
def deviceIdWarning : String :=
  "device_id is specified, but device_name is not. Yandex ID returns token for unknown device."

/-- Warning emitted when `device_name` is given without `device_id`. -/
def deviceNameWarning : String :=
  "device_name is specified, but device_id is not. device_name will be ignored."

/-- The duplicated device-parameter block shared verbatim by
`get_authorization_url` and `get_token_from_code`: validate a truthy
`device_id` (raising `InvalidDeviceID` on failure), add it to the
parameters, warn if `device_name` is missing; then the same for
`device_name` with `InvalidDeviceName` and the converse warning.
Returns the added parameters (in insertion order) and the warnings. -/
def deviceParams (device_id device_name : Option String) :
    Except OAuthExc (List (String × String) × List String) :=
  let step1 : Except OAuthExc (List (String × String) × List String) :=
    if truthy device_id then
      match DeviceID.validate (device_id.getD "") with
      | .error e => .error e
      | .ok _ =>
        .ok ([("device_id", device_id.getD "")],
             if truthy device_name then [] else [deviceIdWarning])
    else .ok ([], [])
  match step1 with
  | .error e => .error e
  | .ok (ps, ws) =>
    if truthy device_name then
      match DeviceName.validate (device_name.getD "") with
      | .error e => .error e
      | .ok _ =>
        .ok (ps ++ [("device_name", device_name.getD "")],
             ws ++ if truthy device_id then [] else [deviceNameWarning])
    else .ok (ps, ws)

/-- The immutable credential tuple held by `AsyncYandexOAuth`. -/
structure Client where
  client_id : String
  client_secret : String
  redirect_uri : String
  scope : Option String := none
deriving DecidableEq, Repr

/-- `get_authorization_url`: returns the query-parameter dictionary (in
Python insertion order, as fed to `urlencode`) together with the warnings
emitted during the call, or the validation failure that aborted it. -/
def get_authorization_url (c : Client) (response_type : String)
    (device_id device_name login_hint scope optional_scope : Option String)
    (force_confirm : Option Bool) (state : Option String) :
    Except OAuthExc (List (String × String) × List String) :=
  match deviceParams device_id device_name with
  | .error e => .error e
  | .ok (dps, warns) =>
    let params := [("response_type", response_type),
                   ("redirect_uri", c.redirect_uri),
                   ("client_id", c.client_id)] ++ dps
    let params := if truthy login_hint then
        params ++ [("login_hint", login_hint.getD "")] else params
    let params := if truthy scope then
        params ++ [("scope", scope.getD "")] else params
    let pw :=
      if truthy optional_scope then
        (params ++ [("optional_scope", optional_scope.getD "")],
         warns ++
           (if truthy c.scope || truthy scope then
              (if truthy c.scope then
                 OptionalScope.validate (c.scope.getD "") (optional_scope.getD "")
               else if truthy scope then
                 OptionalScope.validate (scope.getD "") (optional_scope.getD "")
               else [])
            else []))
      else (params, warns)
    let params := pw.1
    let warns := pw.2
    let params := match force_confirm with
      | some b => if b then params ++ [("force_confirm", "1")] else params
      | none => params
    let params := if truthy state then
        params ++ [("state", state.getD "")] else params
    .ok (params, warns)

/-- The form body built by `get_token_from_code` before the request is
issued, together with the warnings emitted; the validation failure
otherwise. -/
def get_token_from_code_data (code : String)
    (device_id device_name : Option String) :
    Except OAuthExc (List (String × String) × List String) :=
  match deviceParams device_id device_name with
  | .error e => .error e
  | .ok (dps, warns) =>
    .ok ([("grant_type", "authorization_code"), ("code", code)] ++ dps, warns)

/-- `get_token_from_code`, with the HTTP transport abstracted as a
function from the form body to a response (or a transport failure). -/
def get_token_from_code (code : String)
    (device_id device_name : Option String)
    (transport : List (String × String) → Except OAuthExc OAuthResponse) :
    Except OAuthExc (Token × List String) :=
  match get_token_from_code_data code device_id device_name with
  | .error e => .error e
  | .ok (data, warns) =>
    match transport data with
    | .error e => .error e
    | .ok r =>
      match handleExchangeResponse r with
      | .error e => .error e
      | .ok tok => .ok (tok, warns)

/-- `get_token_from_refresh_token`, transport abstracted as above. -/
def get_token_from_refresh_token (refresh_token : String)
    (transport : List (String × String) → Except OAuthExc OAuthResponse) :
    Except OAuthExc Token :=
  match transport [("grant_type", "refresh_token"),
                   ("refresh_token", refresh_token)] with
  | .error e => .error e
  | .ok r => handleRefreshResponse r

/-- `revoke_token`, transport abstracted as above. -/
def revoke_token (access_token : String)
    (transport : List (String × String) → Except OAuthExc OAuthResponse) :
    Except OAuthExc Bool :=
  match transport [("access_token", access_token)] with
  | .error e => .error e
  | .ok r => handleRevokeResponse r

/-- Does the query dictionary contain the key? -/
def queryHasParam (params : List (String × String)) (key : String) : Bool :=
  params.any (fun p => p.1 == key)

/-- The query dictionary and warnings built by `get_user_info` (the sync
and async wrappers build them identically).  Note the source writes the
secret under the key `jwt_secert`. -/
def get_user_info_params (format : String) (jwt_secret : Option String)
    (with_openid_identity : Bool) : List (String × String) × List String :=
  let warns := if jwt_secret.isSome then
      ["Using jwt_secret is not recommended for security reasons"] else []
  let params := [("format", format)]
  let params := if with_openid_identity then
      params ++ [("with_openid_identity", "1")] else params
  let params := if truthy jwt_secret then
      params ++ [("jwt_secert", jwt_secret.getD "")] else params
  (params, warns)

/-- The ignored-token list as the C5 claim reads it: trim each
comma-separated token FIRST, then keep the tokens whose trimmed text is
not a substring of the granted scope.  Stated only to compare against the
source's `OptionalScope.ignoredScope`, which tests the untrimmed token. -/
def specTrimmedIgnoredScope (scope optional_scope : String) : List String :=
  ((splitOnComma optional_scope).map pyStrip).filter
    (fun item => !strContains scope item)

/-- The optional-scope validation warnings of `get_authorization_url`
(source lines: `if optional_scope: if self._scope or scope: ...`),
abbreviated for stating lemmas. -/
def oscValidationWarns (c : Client) (s os : Option String) : List String :=
  if truthy os then
    (if truthy c.scope || truthy s then
       (if truthy c.scope then
          OptionalScope.validate (c.scope.getD "") (os.getD "")
        else if truthy s then
          OptionalScope.validate (s.getD "") (os.getD "")
        else [])
     else [])
  else []

/-- The query dictionary built by `get_authorization_url` when the device
block produced parameters `dps`, abbreviated for stating lemmas. -/
def authUrlParams (c : Client) (rt : String) (dps : List (String × String))
    (lh s os st : Option String) (fc : Option Bool) : List (String × String) :=
  let params := [("response_type", rt), ("redirect_uri", c.redirect_uri),
                 ("client_id", c.client_id)] ++ dps
  let params := if truthy lh then params ++ [("login_hint", lh.getD "")] else params
  let params := if truthy s then params ++ [("scope", s.getD "")] else params
  let params := if truthy os then params ++ [("optional_scope", os.getD "")] else params
  let params := match fc with
    | some b => if b then params ++ [("force_confirm", "1")] else params
    | none => params
  if truthy st then params ++ [("state", st.getD "")] else params

example : pyIsAlnum "abc123" = true := by decide
example : pyIsAlnum "abc-123" = false := by decide
example : splitOnComma "a,b c, d" = ["a", "b c", " d"] := by decide
example : strContains "login:info login:email" "login:info" = true := by decide
example : strContains "login:info" "login" = true := by decide
example : OptionalScope.validate "login:info login:email" "login:info,login:avatar"
    = ["Optional scopes login:avatar is not in scope."] := by decide
example : OptionalScope.validate "ab" " ab"
    = ["Optional scopes ab is not in scope."] := by decide

example :
    get_authorization_url ⟨"cid", "sec", "uri", some "a"⟩ "code"
      none none none (some "b") (some "b") none none
    = .ok ([("response_type", "code"), ("redirect_uri", "uri"),
            ("client_id", "cid"), ("scope", "b"), ("optional_scope", "b")],
           ["Optional scopes b is not in scope."]) := by rfl

example :
    get_authorization_url ⟨"cid", "sec", "uri", none⟩ "code"
      (some "abc123") none none none none none none
    = .ok ([("response_type", "code"), ("redirect_uri", "uri"),
            ("client_id", "cid"), ("device_id", "abc123")],
           [deviceIdWarning]) := by rfl

example :
    get_token_from_code "c" (some "ab") none (fun _ => .ok {})
    = .error (OAuthExc.invalidDeviceID "Device ID is too short") := by rfl

example :
    get_user_info_params "jwt" (some "sec") false
    = ([("format", "jwt"), ("jwt_secert", "sec")],
       ["Using jwt_secret is not recommended for security reasons"]) := by decide

lemma pyIsAlnum_eq_false_iff (s : String) (hs : s.data ≠ []) :
    pyIsAlnum s = false ↔ ∃ c ∈ s.data, ¬(c.isAlphanum = true) := by
  simp [pyIsAlnum, List.all_eq_true, hs]

lemma string_length_eq_data_length (s : String) : s.length = s.data.length := rfl

lemma deviceID_validate_ok_iff (id : String) :
    DeviceID.validate id = .ok true ↔
      ¬(id.length < 6 ∨ 50 < id.length ∨ ∃ c ∈ id.data, ¬(c.isAlphanum = true)) := by
  unfold DeviceID.validate
  split_ifs with h1 h2 h3
  · exact iff_of_false (by simp) (not_not_intro (Or.inl h1))
  · exact iff_of_false (by simp) (not_not_intro (Or.inr (Or.inl h2)))
  · have hne : id.data ≠ [] := by
      intro h0
      apply h1
      rw [string_length_eq_data_length, h0]
      decide
    have hbad := (pyIsAlnum_eq_false_iff id hne).mp (by simpa using h3)
    exact iff_of_false (by simp) (not_not_intro (Or.inr (Or.inr hbad)))
  · have halnum : pyIsAlnum id = true := by simpa using h3
    have hall : ∀ c ∈ id.data, c.isAlphanum = true := by
      have := halnum
      simp only [pyIsAlnum, Bool.and_eq_true, List.all_eq_true] at this
      exact this.2
    refine iff_of_true rfl ?_
    rintro (h | h | ⟨c, hc, hcn⟩)
    · exact h1 h
    · exact h2 h
    · exact hcn (hall c hc)

lemma deviceID_validate_cases (id : String) :
    DeviceID.validate id = .ok true ∨
      ∃ d, DeviceID.validate id = .error (OAuthExc.invalidDeviceID d) := by
  unfold DeviceID.validate
  split_ifs <;> first | exact Or.inl rfl | exact Or.inr ⟨_, rfl⟩

lemma deviceID_validate_error_iff (id : String) :
    (∃ d, DeviceID.validate id = .error (OAuthExc.invalidDeviceID d)) ↔
      (id.length < 6 ∨ 50 < id.length ∨ ∃ c ∈ id.data, ¬(c.isAlphanum = true)) := by
  constructor
  · rintro ⟨d, hd⟩
    by_contra hno
    have hok := (deviceID_validate_ok_iff id).mpr hno
    rw [hok] at hd
    exact Except.noConfusion hd
  · intro hcond
    rcases deviceID_validate_cases id with h | h
    · exact absurd hcond ((deviceID_validate_ok_iff id).mp h)
    · exact h

lemma deviceName_validate_ok_iff (name : String) :
    DeviceName.validate name = .ok true ↔ ¬ 100 < name.length := by
  unfold DeviceName.validate
  split_ifs with h
  · exact iff_of_false (by simp) (not_not_intro h)
  · exact iff_of_true rfl h

lemma deviceName_validate_error_iff (name : String) :
    (∃ d, DeviceName.validate name = .error (OAuthExc.invalidDeviceName d)) ↔
      100 < name.length := by
  unfold DeviceName.validate
  split_ifs with h
  · exact iff_of_true ⟨_, rfl⟩ h
  · refine iff_of_false ?_ h
    rintro ⟨d, hd⟩
    exact hd

/-- C4: `DeviceID.validate` fails with `InvalidDeviceID` exactly when the
id is shorter than 6 characters, longer than 50, or contains a
non-alphanumeric character, and passes otherwise; `DeviceName.validate`
fails with `InvalidDeviceName` exactly when the name is longer than 100
characters; including the spec's concrete examples ("ab", "abc-123" and a
51-character id fail, "abc123" passes; a 100-character name passes, a
101-character name fails). -/
theorem C4_validators (id name : String) :
    ((∃ d, DeviceID.validate id = .error (OAuthExc.invalidDeviceID d)) ↔
       (id.length < 6 ∨ 50 < id.length ∨ ∃ c ∈ id.data, ¬(c.isAlphanum = true)))
  ∧ (DeviceID.validate id = .ok true ↔
       ¬(id.length < 6 ∨ 50 < id.length ∨ ∃ c ∈ id.data, ¬(c.isAlphanum = true)))
  ∧ ((∃ d, DeviceName.validate name = .error (OAuthExc.invalidDeviceName d)) ↔
       100 < name.length)
  ∧ (DeviceName.validate name = .ok true ↔ ¬ 100 < name.length)
  ∧ (∃ d, DeviceID.validate "ab" = .error (OAuthExc.invalidDeviceID d))
  ∧ (∃ d, DeviceID.validate "abc-123" = .error (OAuthExc.invalidDeviceID d))
  ∧ (∃ d, DeviceID.validate (String.mk (List.replicate 51 'a')) =
       .error (OAuthExc.invalidDeviceID d))
  ∧ DeviceID.validate "abc123" = .ok true
  ∧ DeviceName.validate (String.mk (List.replicate 100 'x')) = .ok true
  ∧ (∃ d, DeviceName.validate (String.mk (List.replicate 101 'x')) =
       .error (OAuthExc.invalidDeviceName d)) := by
  refine ⟨deviceID_validate_error_iff id, deviceID_validate_ok_iff id,
          deviceName_validate_error_iff name, deviceName_validate_ok_iff name,
          ⟨"Device ID is too short", by rfl⟩,
          ⟨"Device ID must contain only alphanumeric characters", by rfl⟩,
          ⟨"Device ID is too long", by rfl⟩, by rfl, by rfl,
          ⟨"Device name is too long", by rfl⟩⟩

/-- C1: for each of the three token-lifecycle operations, a response body
with an `error` (and `error_description`) field raises exactly the failure
given by the operation's code table, carrying the description verbatim:
exchange recognizes eight codes, refresh five, revoke three (so
`invalid_grant` on revoke falls through to the generic `YandexOAuthError`),
and any code outside the operation's set maps to the generic kind. -/
theorem C1_error_mapping (code desc : String) (r : OAuthResponse)
    (he : r.error = some code) (hd : r.error_description = some desc) :
    handleExchangeResponse r = .error (exchangeError code desc)
  ∧ handleRefreshResponse r = .error (refreshError code desc)
  ∧ handleRevokeResponse r = .error (revokeError code desc)
  ∧ exchangeError "authorization_pending" desc = .authorizationPending desc
  ∧ exchangeError "bad_verification_code" desc = .badVerificationCode desc
  ∧ exchangeError "invalid_client" desc = .invalidClient desc
  ∧ exchangeError "invalid_grant" desc = .invalidGrant desc
  ∧ exchangeError "invalid_request" desc = .invalidRequest desc
  ∧ exchangeError "invalid_scope" desc = .invalidScope desc
  ∧ exchangeError "unauthorized_client" desc = .unauthorizedClient desc
  ∧ exchangeError "unsupported_grant_type" desc = .unsupportedGrantType desc
  ∧ refreshError "invalid_client" desc = .invalidClient desc
  ∧ refreshError "invalid_grant" desc = .invalidGrant desc
  ∧ refreshError "invalid_request" desc = .invalidRequest desc
  ∧ refreshError "unauthorized_client" desc = .unauthorizedClient desc
  ∧ refreshError "unsupported_grant_type" desc = .unsupportedGrantType desc
  ∧ revokeError "invalid_client" desc = .invalidClient desc
  ∧ revokeError "invalid_request" desc = .invalidRequest desc
  ∧ revokeError "unauthorized_client" desc = .unauthorizedClient desc
  ∧ revokeError "invalid_grant" desc = .yandexOAuthError desc
  ∧ (code ∉ ["authorization_pending", "bad_verification_code", "invalid_client",
       "invalid_grant", "invalid_request", "invalid_scope", "unauthorized_client",
       "unsupported_grant_type"] → exchangeError code desc = .yandexOAuthError desc)
  ∧ (code ∉ ["invalid_client", "invalid_grant", "invalid_request",
       "unauthorized_client", "unsupported_grant_type"] →
       refreshError code desc = .yandexOAuthError desc)
  ∧ (code ∉ ["invalid_client", "invalid_request", "unauthorized_client"] →
       revokeError code desc = .yandexOAuthError desc) := by
  refine ⟨?_, ?_, ?_, by rfl, by rfl, by rfl, by rfl, by rfl, by rfl, by rfl,
          by rfl, by rfl, by rfl, by rfl, by rfl, by rfl, by rfl, by rfl,
          by rfl, by rfl, ?_, ?_, ?_⟩
  · simp [handleExchangeResponse, errorDescription, he, hd]
  · simp [handleRefreshResponse, errorDescription, he, hd]
  · simp [handleRevokeResponse, errorDescription, he, hd]
  · intro hmem
    simp only [List.mem_cons, List.not_mem_nil, or_false, not_or] at hmem
    obtain ⟨n1, n2, n3, n4, n5, n6, n7, n8⟩ := hmem
    simp [exchangeError, n1, n2, n3, n4, n5, n6, n7, n8]
  · intro hmem
    simp only [List.mem_cons, List.not_mem_nil, or_false, not_or] at hmem
    obtain ⟨n1, n2, n3, n4, n5⟩ := hmem
    simp [refreshError, n1, n2, n3, n4, n5]
  · intro hmem
    simp only [List.mem_cons, List.not_mem_nil, or_false, not_or] at hmem
    obtain ⟨n1, n2, n3⟩ := hmem
    simp [revokeError, n1, n2, n3]

/-- Witness for C1: a concrete `invalid_grant` response to revoke falls
through to the generic kind. -/
theorem C1_witness :
    handleRevokeResponse ⟨some "invalid_grant", some "gone", none, none, none, none, none⟩
      = .error (OAuthExc.yandexOAuthError "gone") := by
  have h := C1_error_mapping "invalid_grant" "gone"
    ⟨some "invalid_grant", some "gone", none, none, none, none, none⟩ rfl rfl
  rw [h.2.2.1]
  rfl

/-- C2: `revoke_token` response handling returns `True` exactly when the
body has no `error` field; a present `error` raises the mapped revoke-set
failure carrying the description verbatim; the body
`{error: "invalid_request", error_description: "bad token"}` raises
`InvalidRequest` with description "bad token"; no execution returns
`False`. -/
theorem C2_revoke_success_or_raise (r : OAuthResponse) (code desc : String) :
    (r.error = none ↔ handleRevokeResponse r = .ok true)
  ∧ (r.error = some code → r.error_description = some desc →
       handleRevokeResponse r = .error (revokeError code desc))
  ∧ (∀ b, handleRevokeResponse r = .ok b → b = true)
  ∧ handleRevokeResponse ⟨some "invalid_request", some "bad token", none, none, none, none, none⟩
      = .error (OAuthExc.invalidRequest "bad token") := by
  refine ⟨⟨?_, ?_⟩, ?_, ?_, by rfl⟩
  · intro h
    simp [handleRevokeResponse, h]
  · intro h
    cases he : r.error with
    | none => rfl
    | some c =>
      exfalso
      simp only [handleRevokeResponse, he] at h
      split at h <;> exact Except.noConfusion h
  · intro he hd
    simp [handleRevokeResponse, errorDescription, he, hd]
  · intro b hb
    cases he : r.error with
    | none =>
      simp only [handleRevokeResponse, he] at hb
      cases hb
      rfl
    | some c =>
      exfalso
      simp only [handleRevokeResponse, he] at hb
      split at hb <;> exact Except.noConfusion hb

/-- Witness for C2 at a concrete error-free response. -/
theorem C2_witness :
    handleRevokeResponse ({ } : OAuthResponse) = .ok true :=
  (C2_revoke_success_or_raise { } "x" "y").1.mp rfl

/-- C3: a `Token` is constructed, with field values taken verbatim from
the body, exactly when the response body lacks an `error` field; a body
with `error` never yields a token and (given a description) raises a
taxonomy failure; the outcomes are mutually exclusive and exhaustive; the
spec's round-trip example holds. -/
theorem C3_token_invariant (r : OAuthResponse) :
    (r.error = none → ∀ a t e rt, r.access_token = some a → r.token_type = some t →
       r.expires_in = some e → r.refresh_token = some rt →
       handleExchangeResponse r = .ok ⟨a, t, e, rt, r.scope⟩
       ∧ handleRefreshResponse r = .ok ⟨a, t, e, rt, r.scope⟩)
  ∧ (∀ code, r.error = some code →
       (∀ tok, handleExchangeResponse r ≠ .ok tok)
       ∧ (∀ tok, handleRefreshResponse r ≠ .ok tok))
  ∧ (∀ code desc, r.error = some code → r.error_description = some desc →
       handleExchangeResponse r = .error (exchangeError code desc)
       ∧ handleRefreshResponse r = .error (refreshError code desc))
  ∧ ((∃ tok, handleExchangeResponse r = .ok tok)
       ∨ (∃ exc, handleExchangeResponse r = .error exc))
  ∧ ¬((∃ tok, handleExchangeResponse r = .ok tok)
       ∧ (∃ exc, handleExchangeResponse r = .error exc))
  ∧ handleExchangeResponse ⟨none, none, some "A", some "bearer", some 3600, some "R", none⟩
      = .ok ⟨"A", "bearer", 3600, "R", none⟩ := by
  refine ⟨?_, ?_, ?_, ?_, ?_, by rfl⟩
  · intro h0 a t e rt h1 h2 h3 h4
    constructor
    · simp only [handleExchangeResponse, h0]
      simp [Token.ofResponse, h1, h2, h3, h4]
    · simp only [handleRefreshResponse, h0]
      simp [Token.ofResponse, h1, h2, h3, h4]
  · intro code hc
    constructor <;> intro tok h
    · simp only [handleExchangeResponse, hc] at h
      split at h <;> exact Except.noConfusion h
    · simp only [handleRefreshResponse, hc] at h
      split at h <;> exact Except.noConfusion h
  · intro code desc he hd
    constructor
    · simp [handleExchangeResponse, errorDescription, he, hd]
    · simp [handleRefreshResponse, errorDescription, he, hd]
  · cases h : handleExchangeResponse r with
    | ok tok => exact Or.inl ⟨tok, rfl⟩
    | error exc => exact Or.inr ⟨exc, rfl⟩
  · rintro ⟨⟨tok, hok⟩, ⟨exc, herr⟩⟩
    rw [hok] at herr
    exact Except.noConfusion herr

/-- Witness for C3 at the spec's round-trip example body. -/
theorem C3_witness :
    handleExchangeResponse ⟨none, none, some "A", some "bearer", some 3600, some "R", none⟩
      = .ok ⟨"A", "bearer", 3600, "R", none⟩ :=
  ((C3_token_invariant ⟨none, none, some "A", some "bearer", some 3600, some "R", none⟩).1
    rfl "A" "bearer" 3600 "R" rfl rfl rfl rfl).1

lemma ignoredScope_eq_nil_iff (scope osc : String) :
    OptionalScope.ignoredScope scope osc = [] ↔
      ∀ item ∈ splitOnComma osc, strContains scope item = true := by
  unfold OptionalScope.ignoredScope
  rw [List.map_eq_nil_iff, List.filter_eq_nil_iff]
  simp

/-- Counterexample to C5: on granted scope "ab" and optional-scope string
" ab", the code emits a warning naming the trimmed token "ab" even though
"ab" IS a substring of the granted scope — the code tests the untrimmed
token " ab", so the warned set is not "exactly those trimmed tokens that
are not substrings". -/
theorem C5_counterexample :
    OptionalScope.validate "ab" " ab" = ["Optional scopes ab is not in scope."]
  ∧ strContains "ab" (pyStrip " ab") = true
  ∧ specTrimmedIgnoredScope "ab" " ab" = [] := by
  refine ⟨by decide, by decide, by decide⟩

/-- C5 amended: `OptionalScope.validate` splits the optional-scope string
on commas and emits (at most) one non-fatal warning naming the trimmed
forms of exactly those raw, UNTRIMMED tokens that are not substrings of
the granted scope; it never raises (it is a total function into a warning
list); no warning is emitted exactly when every raw token is a substring
of the granted scope; the spec's example emits exactly one warning naming
"login:avatar", and the token "login" counts as granted whenever the
granted scope contains "login:info". -/
theorem C5_optional_scope (scope osc : String) :
    (OptionalScope.validate scope osc = [] ↔
       ∀ item ∈ splitOnComma osc, strContains scope item = true)
  ∧ (OptionalScope.validate scope osc).length ≤ 1
  ∧ OptionalScope.ignoredScope scope osc
      = ((splitOnComma osc).filter (fun item => !strContains scope item)).map pyStrip
  ∧ OptionalScope.validate "login:info login:email" "login:info,login:avatar"
      = ["Optional scopes login:avatar is not in scope."]
  ∧ strContains "login:info login:email" "login" = true := by
  refine ⟨?_, ?_, rfl, by decide, by decide⟩
  · simp only [OptionalScope.validate]
    by_cases h : (OptionalScope.ignoredScope scope osc).isEmpty = true
    · rw [if_pos h]
      rw [List.isEmpty_iff] at h
      exact iff_of_true rfl ((ignoredScope_eq_nil_iff scope osc).mp h)
    · have hne : OptionalScope.ignoredScope scope osc ≠ [] := by
        intro h0
        exact h (by rw [h0]; rfl)
      rw [if_neg h]
      refine iff_of_false (by simp) ?_
      intro hall
      exact hne ((ignoredScope_eq_nil_iff scope osc).mpr hall)
  · simp only [OptionalScope.validate]
    split_ifs <;> simp

lemma queryHasParam_nil (k : String) : queryHasParam [] k = false := rfl

lemma queryHasParam_cons (p : String × String) (ps : List (String × String))
    (k : String) : queryHasParam (p :: ps) k = (p.1 == k || queryHasParam ps k) := rfl

lemma queryHasParam_append (a b : List (String × String)) (k : String) :
    queryHasParam (a ++ b) k = (queryHasParam a k || queryHasParam b k) := by
  simp [queryHasParam, List.any_append]

lemma get_authorization_url_ok (c : Client) (rt : String)
    (device_id device_name lh s os st : Option String) (fc : Option Bool)
    (dps : List (String × String)) (dws : List String)
    (hdp : deviceParams device_id device_name = .ok (dps, dws)) :
    get_authorization_url c rt device_id device_name lh s os fc st
      = .ok (authUrlParams c rt dps lh s os st fc,
             dws ++ oscValidationWarns c s os) := by
  simp only [get_authorization_url, hdp, authUrlParams, oscValidationWarns]
  by_cases hos : truthy os = true <;> simp [hos]

lemma get_authorization_url_err (c : Client) (rt : String)
    (device_id device_name lh s os st : Option String) (fc : Option Bool)
    (e : OAuthExc) (hdp : deviceParams device_id device_name = .error e) :
    get_authorization_url c rt device_id device_name lh s os fc st = .error e := by
  simp only [get_authorization_url, hdp]

lemma truthy_none : truthy none = false := rfl

lemma truthy_some_empty : truthy (some "") = false := rfl

set_option maxHeartbeats 1000000 in
lemma authUrlParams_hasParam_device (c : Client) (rt : String)
    (dps : List (String × String)) (lh s os st : Option String)
    (fc : Option Bool) :
    queryHasParam (authUrlParams c rt dps lh s os st fc) "device_id"
      = queryHasParam dps "device_id"
  ∧ queryHasParam (authUrlParams c rt dps lh s os st fc) "device_name"
      = queryHasParam dps "device_name" := by
  constructor <;>
  · simp only [authUrlParams]
    cases fc with
    | none =>
      split_ifs <;>
        simp [queryHasParam_append, queryHasParam_cons, queryHasParam_nil]
    | some b =>
      cases b <;> split_ifs <;>
        simp [queryHasParam_append, queryHasParam_cons, queryHasParam_nil]

lemma authUrlParams_hasParam_osc (c : Client) (rt : String)
    (dps : List (String × String)) (lh s os st : Option String)
    (fc : Option Bool) (hdps : queryHasParam dps "optional_scope" = false) :
    queryHasParam (authUrlParams c rt dps lh s os st fc) "optional_scope"
      = truthy os := by
  simp only [authUrlParams]
  cases fc with
  | none =>
    split_ifs with h1 h2 h3 h4 <;>
      simp_all [queryHasParam_append, queryHasParam_cons, queryHasParam_nil]
  | some b =>
    cases b <;> split_ifs with h1 h2 h3 h4 <;>
      simp_all [queryHasParam_append, queryHasParam_cons, queryHasParam_nil]

lemma deviceParams_none_none : deviceParams none none = .ok ([], []) := rfl

lemma deviceParams_id_only (did : String) (ht : truthy (some did) = true)
    (h : DeviceID.validate did = .ok true) :
    deviceParams (some did) none = .ok ([("device_id", did)], [deviceIdWarning]) := by
  simp [deviceParams, ht, h, truthy_none]

lemma deviceParams_name_only (dn : String) (ht : truthy (some dn) = true)
    (h : DeviceName.validate dn = .ok true) :
    deviceParams none (some dn) = .ok ([("device_name", dn)], [deviceNameWarning]) := by
  simp [deviceParams, ht, h, truthy_none]

lemma deviceParams_id_invalid (did : String) (dn : Option String) (e : OAuthExc)
    (ht : truthy (some did) = true) (h : DeviceID.validate did = .error e) :
    deviceParams (some did) dn = .error e := by
  simp [deviceParams, ht, h]

lemma deviceParams_name_invalid (dn : String) (e : OAuthExc)
    (ht : truthy (some dn) = true) (h : DeviceName.validate dn = .error e) :
    deviceParams none (some dn) = .error e := by
  simp [deviceParams, ht, h, truthy_none]

lemma deviceParams_name_invalid_id_valid (did dn : String) (e : OAuthExc)
    (hti : truthy (some did) = true) (htn : truthy (some dn) = true)
    (hid : DeviceID.validate did = .ok true)
    (h : DeviceName.validate dn = .error e) :
    deviceParams (some did) (some dn) = .error e := by
  simp [deviceParams, hti, htn, hid, h]

lemma deviceParams_empty_id (dn : Option String) :
    deviceParams (some "") dn = deviceParams none dn := rfl

lemma deviceParams_empty_name (did : Option String) :
    deviceParams did (some "") = deviceParams did none := rfl

/-- Counterexample to C6: with client default scope "a" and explicit
scope argument "b", a call with `optional_scope = "b"` emits a warning —
the optional scope was validated against the client DEFAULT "a", although
validating against the explicit argument "b" (as the claim reads) would
have produced no warning.  The code prefers the client default. -/
theorem C6_counterexample :
    get_authorization_url ⟨"cid", "sec", "uri", some "a"⟩ "code"
        none none none (some "b") (some "b") none none
      = .ok ([("response_type", "code"), ("redirect_uri", "uri"),
              ("client_id", "cid"), ("scope", "b"), ("optional_scope", "b")],
             ["Optional scopes b is not in scope."])
  ∧ OptionalScope.validate "b" "b" = [] := ⟨by rfl, by decide⟩

/-- C6 amended: for every call with a truthy `optional_scope` (and no
device parameters), the optional scope is validated against the client's
DEFAULT scope when that is non-empty, otherwise against the explicit
`scope` argument when that is non-empty — the client default is preferred
over the explicit argument — and when neither is non-empty no validation
happens; `optional_scope` is always included in the query regardless of
warnings. -/
theorem C6_optional_scope_validation (c : Client) (rt : String)
    (lh s os st : Option String) (fc : Option Bool)
    (hos : truthy os = true) :
    get_authorization_url c rt none none lh s os fc st
      = .ok (authUrlParams c rt [] lh s os st fc,
             if truthy c.scope then
               OptionalScope.validate (c.scope.getD "") (os.getD "")
             else if truthy s then
               OptionalScope.validate (s.getD "") (os.getD "")
             else [])
  ∧ queryHasParam (authUrlParams c rt [] lh s os st fc) "optional_scope"
      = true := by
  have h := get_authorization_url_ok c rt none none lh s os st fc [] []
    deviceParams_none_none
  constructor
  · rw [h, List.nil_append]
    have hwarns : oscValidationWarns c s os
        = (if truthy c.scope then
             OptionalScope.validate (c.scope.getD "") (os.getD "")
           else if truthy s then
             OptionalScope.validate (s.getD "") (os.getD "")
           else []) := by
      unfold oscValidationWarns
      rw [if_pos hos]
      by_cases hcs : truthy c.scope = true
      · simp [hcs]
      · by_cases hs : truthy s = true <;> simp [hcs, hs]
    rw [hwarns]
  · rw [authUrlParams_hasParam_osc c rt [] lh s os st fc rfl]
    exact hos

/-- Witness for C6 amended: client default scope empty, explicit scope
"b" — the explicit argument is used and covers the optional scope. -/
theorem C6_witness :
    get_authorization_url ⟨"cid", "sec", "uri", none⟩ "code"
        none none none (some "b") (some "b") none none
      = .ok ([("response_type", "code"), ("redirect_uri", "uri"),
              ("client_id", "cid"), ("scope", "b"), ("optional_scope", "b")],
             []) := by
  have h := (C6_optional_scope_validation ⟨"cid", "sec", "uri", none⟩ "code"
    none (some "b") (some "b") none none (by decide)).1
  rw [h]
  rfl

/-- C7: device-parameter policy of `get_authorization_url` — a valid
truthy `device_id` without `device_name` is included in the query with
exactly one warning; a valid truthy `device_name` without `device_id` is
included with exactly one warning; with neither, neither key appears and
no warning is emitted; any invalid given value aborts the call with the
corresponding validation failure and no parameter set is returned. -/
theorem C7_device_policy (c : Client) (rt : String) (did dn : String)
    (lh s st : Option String) (fc : Option Bool) :
    (truthy (some did) = true → DeviceID.validate did = .ok true →
       ∃ ps, get_authorization_url c rt (some did) none lh s none fc st
           = .ok (ps, [deviceIdWarning])
         ∧ queryHasParam ps "device_id" = true)
  ∧ (truthy (some dn) = true → DeviceName.validate dn = .ok true →
       ∃ ps, get_authorization_url c rt none (some dn) lh s none fc st
           = .ok (ps, [deviceNameWarning])
         ∧ queryHasParam ps "device_name" = true)
  ∧ (∃ ps, get_authorization_url c rt none none lh s none fc st = .ok (ps, [])
       ∧ queryHasParam ps "device_id" = false
       ∧ queryHasParam ps "device_name" = false)
  ∧ (∀ e dn2 os, truthy (some did) = true → DeviceID.validate did = .error e →
       get_authorization_url c rt (some did) dn2 lh s os fc st = .error e)
  ∧ (∀ e os, truthy (some dn) = true → DeviceName.validate dn = .error e →
       get_authorization_url c rt none (some dn) lh s os fc st = .error e)
  ∧ (∀ e os, truthy (some did) = true → truthy (some dn) = true →
       DeviceID.validate did = .ok true → DeviceName.validate dn = .error e →
       get_authorization_url c rt (some did) (some dn) lh s os fc st
         = .error e) := by
  refine ⟨?_, ?_, ?_, ?_, ?_, ?_⟩
  · intro ht h
    refine ⟨authUrlParams c rt [("device_id", did)] lh s none st fc, ?_, ?_⟩
    · rw [get_authorization_url_ok c rt (some did) none lh s none st fc _ _
        (deviceParams_id_only did ht h)]
      simp [oscValidationWarns, truthy_none]
    · rw [(authUrlParams_hasParam_device c rt _ lh s none st fc).1]
      simp [queryHasParam_cons]
  · intro ht h
    refine ⟨authUrlParams c rt [("device_name", dn)] lh s none st fc, ?_, ?_⟩
    · rw [get_authorization_url_ok c rt none (some dn) lh s none st fc _ _
        (deviceParams_name_only dn ht h)]
      simp [oscValidationWarns, truthy_none]
    · rw [(authUrlParams_hasParam_device c rt _ lh s none st fc).2]
      simp [queryHasParam_cons]
  · refine ⟨authUrlParams c rt [] lh s none st fc, ?_, ?_, ?_⟩
    · rw [get_authorization_url_ok c rt none none lh s none st fc _ _
        deviceParams_none_none]
      simp [oscValidationWarns, truthy_none]
    · rw [(authUrlParams_hasParam_device c rt _ lh s none st fc).1]
      rfl
    · rw [(authUrlParams_hasParam_device c rt _ lh s none st fc).2]
      rfl
  · intro e dn2 os ht h
    exact get_authorization_url_err c rt _ _ lh s os st fc e
      (deviceParams_id_invalid did dn2 e ht h)
  · intro e os ht h
    exact get_authorization_url_err c rt _ _ lh s os st fc e
      (deviceParams_name_invalid dn e ht h)
  · intro e os hti htn hid h
    exact get_authorization_url_err c rt _ _ lh s os st fc e
      (deviceParams_name_invalid_id_valid did dn e hti htn hid h)

/-- Witness for C7: a too-short device id aborts the URL build with
`InvalidDeviceID`. -/
theorem C7_witness :
    get_authorization_url ⟨"cid", "sec", "uri", none⟩ "code"
        (some "ab") none none none none none none
      = .error (OAuthExc.invalidDeviceID "Device ID is too short") :=
  (C7_device_policy ⟨"cid", "sec", "uri", none⟩ "code" "ab" "x"
      none none none none).2.2.2.1
    (OAuthExc.invalidDeviceID "Device ID is too short") none none
    (by decide) (by rfl)

/-- C8: `get_token_from_code` checks device validation before any network
call — on invalid input the outcome is a validation failure, identical
for every transport — and once a request is issued, a transport failure
or a provider error response is surfaced immediately, the outcome
depending only on the transport's single response to the built request
(no retry). -/
theorem C8_validation_before_transport (code : String) (did dn : Option String)
    (e : OAuthExc)
    (t1 t2 : List (String × String) → Except OAuthExc OAuthResponse) :
    (get_token_from_code_data code did dn = .error e →
       get_token_from_code code did dn t1 = .error e
       ∧ get_token_from_code code did dn t1 = get_token_from_code code did dn t2)
  ∧ (∀ d ws, get_token_from_code_data code did dn = .ok (d, ws) →
       t1 d = .error e → get_token_from_code code did dn t1 = .error e)
  ∧ (∀ d ws r cd desc, get_token_from_code_data code did dn = .ok (d, ws) →
       t1 d = .ok r → r.error = some cd → r.error_description = some desc →
       get_token_from_code code did dn t1 = .error (exchangeError cd desc))
  ∧ (∀ d ws, get_token_from_code_data code did dn = .ok (d, ws) →
       t1 d = t2 d →
       get_token_from_code code did dn t1 = get_token_from_code code did dn t2)
  ∧ (∀ did2, truthy (some did2) = true → DeviceID.validate did2 = .error e →
       get_token_from_code code (some did2) dn t1 = .error e) := by
  refine ⟨?_, ?_, ?_, ?_, ?_⟩
  · intro h
    constructor <;> simp [get_token_from_code, h]
  · intro d ws h ht
    simp [get_token_from_code, h, ht]
  · intro d ws r cd desc h ht he hd
    simp [get_token_from_code, h, ht, handleExchangeResponse,
          errorDescription, he, hd]
  · intro d ws h he
    simp [get_token_from_code, h, he]
  · intro did2 ht hv
    simp [get_token_from_code, get_token_from_code_data,
          deviceParams_id_invalid did2 dn e ht hv]

/-- Witness for C8: the too-short device id "ab" fails validation and the
transport is never consulted. -/
theorem C8_witness :
    get_token_from_code "c" (some "ab") none (fun _ => .ok { })
      = .error (OAuthExc.invalidDeviceID "Device ID is too short") :=
  ((C8_validation_before_transport "c" (some "ab") none
      (OAuthExc.invalidDeviceID "Device ID is too short")
      (fun _ => .ok { }) (fun _ => .ok { })).1 (by rfl)).1

/-- C9 (code bug): `get_user_info` writes the JWT secret under the
misspelled query key `jwt_secert` — no `jwt_secret` key is ever sent —
so the documented query shape `...&jwt_secret=...` is violated; evaluated
at format "jwt", secret "sec", with_openid_identity true. -/
theorem C9_jwt_secret_key_typo :
    get_user_info_params "jwt" (some "sec") true
      = ([("format", "jwt"), ("with_openid_identity", "1"), ("jwt_secert", "sec")],
         ["Using jwt_secret is not recommended for security reasons"])
  ∧ queryHasParam (get_user_info_params "jwt" (some "sec") true).1
      "jwt_secret" = false
  ∧ queryHasParam (get_user_info_params "jwt" (some "sec") true).1
      "jwt_secert" = true := by
  refine ⟨by decide, by decide, by decide⟩

/-- C10: an empty-string `device_id` or `device_name` is falsy in Python
and therefore treated exactly as an absent argument by both
`get_authorization_url` and `get_token_from_code`: no validation runs (no
`InvalidDeviceID`/`InvalidDeviceName` despite the length being < 6), the
key does not appear in the query or form body, and no half-specified
device warning is emitted for it. -/
theorem C10_empty_string_device (c : Client) (rt code : String)
    (did dn lh s os st : Option String) (fc : Option Bool)
    (t : List (String × String) → Except OAuthExc OAuthResponse) :
    (get_authorization_url c rt (some "") dn lh s os fc st
       = get_authorization_url c rt none dn lh s os fc st)
  ∧ (get_authorization_url c rt did (some "") lh s os fc st
       = get_authorization_url c rt did none lh s os fc st)
  ∧ (get_token_from_code code (some "") dn t
       = get_token_from_code code none dn t)
  ∧ (get_token_from_code code did (some "") t
       = get_token_from_code code did none t)
  ∧ (∃ ps, get_authorization_url c rt (some "") none lh s none fc st
       = .ok (ps, [])
       ∧ queryHasParam ps "device_id" = false)
  ∧ (get_token_from_code_data code (some "") none
       = .ok ([("grant_type", "authorization_code"), ("code", code)], [])) := by
  refine ⟨?_, ?_, ?_, ?_, ?_, by rfl⟩
  · simp only [get_authorization_url, deviceParams_empty_id]
  · simp only [get_authorization_url, deviceParams_empty_name]
  · simp only [get_token_from_code, get_token_from_code_data,
               deviceParams_empty_id]
  · simp only [get_token_from_code, get_token_from_code_data,
               deviceParams_empty_name]
  · refine ⟨authUrlParams c rt [] lh s none st fc, ?_, ?_⟩
    · rw [get_authorization_url_ok c rt (some "") none lh s none st fc [] [] rfl]
      simp [oscValidationWarns, truthy_none]
    · rw [(authUrlParams_hasParam_device c rt [] lh s none st fc).1]
      rfl
